import Mathlib

/-!
Verification of the Istanbul BFT consensus configuration surface
(`consensus/istanbul/config.go`) of celo-blockchain, together with the
engine behaviours that the specification derives from those parameters
(per-round timeouts, round-change resend backoff, proposer selection,
epoch checkpoints, lookback forgiveness, proxy-configuration validation).
Components absent from the given source are modelled from the spec and
marked as such in their doc comments.
-/

namespace Istanbul

/-- Validator address (`common.Address` in the source), modelled abstractly;
the Go zero value becomes `0`. -/
abbrev Address := Nat

/-- Network node identity (`enode.Node` in the source), modelled abstractly;
a nil `*enode.Node` becomes `none` of `Option Enode`. -/
abbrev Enode := Nat

/-- `type ProposerPolicy uint64` from config.go. -/
abbrev ProposerPolicy := Nat

/-- `RoundRobin ProposerPolicy = iota` (value 0). -/
def RoundRobin : ProposerPolicy := 0

/-- `Sticky` (value 1). -/
def Sticky : ProposerPolicy := 1

/-- `ShuffledRoundRobin` (value 2). -/
def ShuffledRoundRobin : ProposerPolicy := 2

/-- `type FaultyMode uint64` from config.go. -/
abbrev FaultyMode := Nat

/-- `Disabled FaultyMode = iota` (value 0). -/
def Disabled : FaultyMode := 0

/-- `Random` (value 1). -/
def Random : FaultyMode := 1

/-- `NotBroadcast` (value 2). -/
def NotBroadcast : FaultyMode := 2

/-- `SendWrongMsg` (value 3). -/
def SendWrongMsg : FaultyMode := 3

/-- `ModifySig` (value 4). -/
def ModifySig : FaultyMode := 4

/-- `AlwaysPropose` (value 5). -/
def AlwaysPropose : FaultyMode := 5

/-- `AlwaysRoundChange` (value 6). -/
def AlwaysRoundChange : FaultyMode := 6

/-- `BadBlock` (value 7). -/
def BadBlock : FaultyMode := 7

/-- `SendExtraMessages` (value 8). -/
def SendExtraMessages : FaultyMode := 8

/-- `SendExtraFutureMessages` (value 9). -/
def SendExtraFutureMessages : FaultyMode := 9

/-- `func (f FaultyMode) String() string` from config.go: a switch over the
ten defined constants with default case `"Undefined"`. -/
def faultyModeString (f : FaultyMode) : String :=
  if f = Disabled then "Disabled"
  else if f = Random then "Random"
  else if f = NotBroadcast then "NotBroadcast"
  else if f = SendWrongMsg then "SendWrongMsg"
  else if f = ModifySig then "ModifySig"
  else if f = AlwaysPropose then "AlwaysPropose"
  else if f = AlwaysRoundChange then "AlwaysRoundChange"
  else if f = BadBlock then "BadBlock"
  else if f = SendExtraMessages then "SendExtraMessages"
  else if f = SendExtraFutureMessages then "SendExtraFutureMessages"
  else "Undefined"

/-- `type Config struct` from config.go; `uint64` fields become `Nat`,
`int64` becomes `Int`, nilable `*enode.Node` fields become `Option Enode`. -/
structure Config where
  RequestTimeout : Nat
  TimeoutBackoffFactor : Nat
  MinResendRoundChangeTimeout : Nat
  MaxResendRoundChangeTimeout : Nat
  BlockPeriod : Nat
  ProposerPolicy : ProposerPolicy
  FaultyMode : Nat
  Epoch : Nat
  LookbackWindow : Nat
  ValidatorEnodeDBPath : String
  VersionCertificateDBPath : String
  RoundStateDBPath : String
  Validator : Bool
  Proxy : Bool
  ProxiedValidatorAddress : Address
  Proxied : Bool
  ProxyInternalFacingNode : Option Enode
  ProxyExternalFacingNode : Option Enode
  AnnounceQueryEnodeGossipPeriod : Nat
  AnnounceAggressiveQueryEnodeGossipOnEnablement : Bool
  AnnounceAdditionalValidatorsToGossip : Int
  deriving DecidableEq

/-- `var DefaultConfig = &Config{...}` from config.go; the Go fields not
listed in that literal keep their zero values. -/
def DefaultConfig : Config where
  RequestTimeout := 3000
  TimeoutBackoffFactor := 1000
  MinResendRoundChangeTimeout := 15 * 1000
  MaxResendRoundChangeTimeout := 2 * 60 * 1000
  BlockPeriod := 5
  ProposerPolicy := ShuffledRoundRobin
  FaultyMode := Disabled
  Epoch := 30000
  LookbackWindow := 12
  ValidatorEnodeDBPath := "validatorenodes"
  VersionCertificateDBPath := "versioncertificates"
  RoundStateDBPath := "roundstates"
  Validator := false
  Proxy := false
  ProxiedValidatorAddress := 0
  Proxied := false
  ProxyInternalFacingNode := none
  ProxyExternalFacingNode := none
  AnnounceQueryEnodeGossipPeriod := 300
  AnnounceAggressiveQueryEnodeGossipOnEnablement := true
  AnnounceAdditionalValidatorsToGossip := 10

/-- The Go zero value of `Config`: every field at its type's zero value. -/
def zeroConfig : Config where
  RequestTimeout := 0
  TimeoutBackoffFactor := 0
  MinResendRoundChangeTimeout := 0
  MaxResendRoundChangeTimeout := 0
  BlockPeriod := 0
  ProposerPolicy := 0
  FaultyMode := 0
  Epoch := 0
  LookbackWindow := 0
  ValidatorEnodeDBPath := ""
  VersionCertificateDBPath := ""
  RoundStateDBPath := ""
  Validator := false
  Proxy := false
  ProxiedValidatorAddress := 0
  Proxied := false
  ProxyInternalFacingNode := none
  ProxyExternalFacingNode := none
  AnnounceQueryEnodeGossipPeriod := 0
  AnnounceAggressiveQueryEnodeGossipOnEnablement := false
  AnnounceAdditionalValidatorsToGossip := 0

/-- Modelled from the spec: the configuration-defaulting step (absent from
src; only the `DefaultConfig` values live there) — "every field left at its
zero value is replaced by the documented default", field by field. -/
def applyDefaults (c : Config) : Config where
  RequestTimeout := if c.RequestTimeout = 0 then 3000 else c.RequestTimeout
  TimeoutBackoffFactor := if c.TimeoutBackoffFactor = 0 then 1000 else c.TimeoutBackoffFactor
  MinResendRoundChangeTimeout :=
    if c.MinResendRoundChangeTimeout = 0 then 15000 else c.MinResendRoundChangeTimeout
  MaxResendRoundChangeTimeout :=
    if c.MaxResendRoundChangeTimeout = 0 then 120000 else c.MaxResendRoundChangeTimeout
  BlockPeriod := if c.BlockPeriod = 0 then 5 else c.BlockPeriod
  ProposerPolicy := if c.ProposerPolicy = 0 then ShuffledRoundRobin else c.ProposerPolicy
  FaultyMode := if c.FaultyMode = 0 then Disabled else c.FaultyMode
  Epoch := if c.Epoch = 0 then 30000 else c.Epoch
  LookbackWindow := if c.LookbackWindow = 0 then 12 else c.LookbackWindow
  ValidatorEnodeDBPath :=
    if c.ValidatorEnodeDBPath = "" then "validatorenodes" else c.ValidatorEnodeDBPath
  VersionCertificateDBPath :=
    if c.VersionCertificateDBPath = "" then "versioncertificates" else c.VersionCertificateDBPath
  RoundStateDBPath := if c.RoundStateDBPath = "" then "roundstates" else c.RoundStateDBPath
  Validator := c.Validator
  Proxy := c.Proxy
  ProxiedValidatorAddress := c.ProxiedValidatorAddress
  Proxied := c.Proxied
  ProxyInternalFacingNode := c.ProxyInternalFacingNode
  ProxyExternalFacingNode := c.ProxyExternalFacingNode
  AnnounceQueryEnodeGossipPeriod :=
    if c.AnnounceQueryEnodeGossipPeriod = 0 then 300 else c.AnnounceQueryEnodeGossipPeriod
  AnnounceAggressiveQueryEnodeGossipOnEnablement :=
    if c.AnnounceAggressiveQueryEnodeGossipOnEnablement = false then true
    else c.AnnounceAggressiveQueryEnodeGossipOnEnablement
  AnnounceAdditionalValidatorsToGossip :=
    if c.AnnounceAdditionalValidatorsToGossip = 0 then 10
    else c.AnnounceAdditionalValidatorsToGossip

/-- Modelled from the spec: the TimeoutPolicy per-round deadline (absent from
src). The `TimeoutBackoffFactor` field comment states "Timeout at subsequent
rounds is: RequestTimeout + 2**round * TimeoutBackoffFactor", so round 0 uses
`RequestTimeout` alone — matching the spec's worked examples
timeout(0)=3000, timeout(1)=5000, timeout(2)=7000 under the defaults. -/
def timeoutForRound (c : Config) (round : Nat) : Nat :=
  if round = 0 then c.RequestTimeout
  else c.RequestTimeout + 2 ^ round * c.TimeoutBackoffFactor

/-- Modelled from the spec: the ROUND-CHANGE resend interval of the
TimeoutPolicy (absent from src) — starts at `MinResendRoundChangeTimeout`,
doubles each resend, clamped to `MaxResendRoundChangeTimeout`. -/
def resendInterval (c : Config) : Nat → Nat
  | 0 => c.MinResendRoundChangeTimeout
  | k + 1 => min (2 * resendInterval c k) c.MaxResendRoundChangeTimeout

/-- Modelled from the spec: startup validation of the proxy fields (absent
from src) — `Proxy` and `Proxied` are mutually exclusive, and `Proxied`
requires both `ProxyInternalFacingNode` and `ProxyExternalFacingNode`;
returns `false` exactly on a configuration error. -/
def validProxyConfig (c : Config) : Bool :=
  (!(c.Proxy && c.Proxied)) &&
    (!c.Proxied || (c.ProxyInternalFacingNode.isSome && c.ProxyExternalFacingNode.isSome))

/-- Modelled from the spec: the `RoundRobin` ProposerSelector (absent from
src) — proposer = set[(sequence + round) mod n]. -/
def roundRobinProposer (vals : List Address) (sequence round : Nat) : Option Address :=
  vals[(sequence + round) % vals.length]?

/-- Modelled from the spec: the `Sticky` ProposerSelector (absent from src) —
a base index fixed per sequence (here its canonical representative
`sequence mod n`), advanced by one per round-change within the sequence. -/
def stickyProposer (vals : List Address) (sequence round : Nat) : Option Address :=
  vals[(sequence + round) % vals.length]?

/-- Modelled from the spec: the deterministic seed mixer of
`ShuffledRoundRobin` (absent from src) — a 64-bit linear congruential step
standing in for "a hash of the sequence mixed into a seeded shuffle". -/
def mixSeed (s : Nat) : Nat :=
  (6364136223846793005 * s + 1442695040888963407) % 2 ^ 64

/-- Fuelled Fisher–Yates-style extraction: take the seed-chosen element to
the front and recurse on the remainder with the stepped seed. -/
def shuffleFuel : Nat → Nat → List Address → List Address
  | 0, _, l => l
  | _ + 1, _, [] => []
  | n + 1, seed, a :: l =>
    let i := seed % (a :: l).length
    (a :: l).getD i 0 ::
      shuffleFuel n (mixSeed seed) ((a :: l).take i ++ (a :: l).drop (i + 1))

/-- Modelled from the spec: the permutation of the validator set seeded
deterministically by the sequence number. -/
def seededShuffle (seed : Nat) (vals : List Address) : List Address :=
  shuffleFuel vals.length seed vals

/-- Modelled from the spec: the `ShuffledRoundRobin` ProposerSelector
(absent from src) — shuffle by the sequence seed, then round-robin by round
within that permutation. -/
def shuffledRoundRobinProposer (vals : List Address) (sequence round : Nat) : Option Address :=
  let p := seededShuffle (mixSeed sequence) vals
  p[round % p.length]?

/-- Modelled from the spec: the ProposerSelector dispatch over the policy
constants of config.go. -/
def selectProposer (p : ProposerPolicy) (vals : List Address) (sequence round : Nat) :
    Option Address :=
  if p = RoundRobin then roundRobinProposer vals sequence round
  else if p = Sticky then stickyProposer vals sequence round
  else if p = ShuffledRoundRobin then shuffledRoundRobinProposer vals sequence round
  else none

/-- Modelled from the spec: the EpochManager checkpoint trigger (absent from
src) — fires exactly when `height mod Epoch == 0`. -/
def isEpochCheckpoint (epoch height : Nat) : Bool :=
  height % epoch == 0

/-- Modelled from the spec: the downtime-scoring miss counter (absent from
src) — a missed signature at height `h` counts only when
`currentHeight - h > LookbackWindow`. -/
def countedMisses (currentHeight window : Nat) (missedHeights : List Nat) : Nat :=
  (missedHeights.filter (fun h => decide (window < currentHeight - h))).length

/-- Claim C1 counterexample: at round 0 the deadline is `RequestTimeout`
alone (3000 ms under the defaults), not
`RequestTimeout + 2^0 * TimeoutBackoffFactor` (4000 ms), so the claimed
formula fails for r = 0. -/
theorem round_zero_timeout_counterexample :
    timeoutForRound DefaultConfig 0 ≠
      DefaultConfig.RequestTimeout + 2 ^ 0 * DefaultConfig.TimeoutBackoffFactor := by
  decide

/-- Claim C1 (amended): the round-0 deadline is `RequestTimeout`; for rounds
r ≥ 1 the deadline is `RequestTimeout + 2^r * TimeoutBackoffFactor`; the
deadline is strictly increasing in the round whenever the backoff factor is
positive; and under the defaults timeout(0)=3000, timeout(1)=5000,
timeout(2)=7000. -/
theorem timeout_backoff_amended (c : Config) (r : Nat) (hb : 0 < c.TimeoutBackoffFactor) :
    timeoutForRound c 0 = c.RequestTimeout ∧
    (1 ≤ r → timeoutForRound c r = c.RequestTimeout + 2 ^ r * c.TimeoutBackoffFactor) ∧
    timeoutForRound c r < timeoutForRound c (r + 1) ∧
    timeoutForRound DefaultConfig 0 = 3000 ∧
    timeoutForRound DefaultConfig 1 = 5000 ∧
    timeoutForRound DefaultConfig 2 = 7000 := by
  refine ⟨by simp [timeoutForRound], ?_, ?_, by decide, by decide, by decide⟩
  · intro hr
    have hne : r ≠ 0 := by omega
    simp [timeoutForRound, hne]
  · cases r with
    | zero =>
      have e0 : timeoutForRound c 0 = c.RequestTimeout := by simp [timeoutForRound]
      have e1 : timeoutForRound c 1 = c.RequestTimeout + 2 * c.TimeoutBackoffFactor := by
        simp [timeoutForRound, pow_one]
      rw [e0, e1]
      omega
    | succ k =>
      have hpow : (2 : Nat) ^ (k + 1) < 2 ^ (k + 2) :=
        Nat.pow_lt_pow_right (by omega) (by omega)
      have hmul : 2 ^ (k + 1) * c.TimeoutBackoffFactor < 2 ^ (k + 2) * c.TimeoutBackoffFactor :=
        Nat.mul_lt_mul_of_lt_of_le hpow (Nat.le_refl _) hb
      have e1 : timeoutForRound c (k + 1) =
          c.RequestTimeout + 2 ^ (k + 1) * c.TimeoutBackoffFactor := by
        simp [timeoutForRound]
      have e2 : timeoutForRound c (k + 2) =
          c.RequestTimeout + 2 ^ (k + 2) * c.TimeoutBackoffFactor := by
        simp [timeoutForRound]
      rw [show k + 1 + 1 = k + 2 from rfl, e1, e2]
      exact Nat.add_lt_add_left hmul _

/-- Witness for the amended C1 at the default configuration. -/
theorem timeout_backoff_amended_witness :
    0 < DefaultConfig.TimeoutBackoffFactor ∧
    timeoutForRound DefaultConfig 1 < timeoutForRound DefaultConfig 2 :=
  ⟨by decide, (timeout_backoff_amended DefaultConfig 1 (by decide)).2.2.1⟩

/-- Claim C2: a configuration with both `Proxy` and `Proxied` set, or with
`Proxied` set while either proxy node identity is unset, fails the
spec-modelled startup validation. -/
theorem proxy_config_mutual_exclusion (c : Config)
    (h : (c.Proxy = true ∧ c.Proxied = true) ∨
      (c.Proxied = true ∧
        (c.ProxyInternalFacingNode = none ∨ c.ProxyExternalFacingNode = none))) :
    validProxyConfig c = false := by
  rcases h with ⟨h1, h2⟩ | ⟨h1, h2 | h2⟩ <;> simp [validProxyConfig, h1, h2]

/-- Witness for C2: both proxy roles set on an otherwise zero configuration. -/
theorem proxy_config_mutual_exclusion_witness :
    validProxyConfig { zeroConfig with Proxy := true, Proxied := true } = false :=
  proxy_config_mutual_exclusion _ (Or.inl ⟨rfl, rfl⟩)

/-- Claim C3: defaulting the all-zero configuration yields exactly
`DefaultConfig`, and `DefaultConfig` carries precisely the documented values,
including the three DB paths. -/
theorem default_config_values :
    applyDefaults zeroConfig = DefaultConfig ∧
    DefaultConfig.RequestTimeout = 3000 ∧
    DefaultConfig.TimeoutBackoffFactor = 1000 ∧
    DefaultConfig.MinResendRoundChangeTimeout = 15000 ∧
    DefaultConfig.MaxResendRoundChangeTimeout = 120000 ∧
    DefaultConfig.BlockPeriod = 5 ∧
    DefaultConfig.ProposerPolicy = ShuffledRoundRobin ∧
    DefaultConfig.FaultyMode = Disabled ∧
    DefaultConfig.Epoch = 30000 ∧
    DefaultConfig.LookbackWindow = 12 ∧
    DefaultConfig.AnnounceQueryEnodeGossipPeriod = 300 ∧
    DefaultConfig.AnnounceAggressiveQueryEnodeGossipOnEnablement = true ∧
    DefaultConfig.AnnounceAdditionalValidatorsToGossip = 10 ∧
    DefaultConfig.ValidatorEnodeDBPath = "validatorenodes" ∧
    DefaultConfig.VersionCertificateDBPath = "versioncertificates" ∧
    DefaultConfig.RoundStateDBPath = "roundstates" := by
  decide

/-- Claim C4: under `RoundRobin`, for every non-empty validator set the
proposer is the element at index `(sequence + round) mod n`; in particular
with 4 validators, sequence 100 and round 0, the proposer is validator 0. -/
theorem round_robin_proposer_index (vals : List Address) (sequence round : Nat)
    (h : vals ≠ []) :
    (∃ hi : (sequence + round) % vals.length < vals.length,
      roundRobinProposer vals sequence round =
        some (vals.get ⟨(sequence + round) % vals.length, hi⟩)) ∧
    roundRobinProposer [10, 11, 12, 13] 100 0 = some 10 := by
  have hl : 0 < vals.length := List.length_pos.mpr h
  have hi : (sequence + round) % vals.length < vals.length := Nat.mod_lt _ hl
  exact ⟨⟨hi, by simp [roundRobinProposer, List.getElem?_eq_getElem hi]⟩, by decide⟩

/-- Witness for C4 at the concrete four-validator example. -/
theorem round_robin_proposer_index_witness :
    ([10, 11, 12, 13] : List Address) ≠ [] ∧
    roundRobinProposer [10, 11, 12, 13] 100 0 = some 10 :=
  ⟨by decide, (round_robin_proposer_index [10, 11, 12, 13] 100 0 (by decide)).2⟩

/-- Claim C5: the resend interval starts at `MinResendRoundChangeTimeout`,
doubles on each resend while the doubled value stays within
`MaxResendRoundChangeTimeout`, never exceeds that maximum (given
min ≤ max), and under the defaults starts at 15000 and is bounded by
120000. -/
theorem resend_interval_backoff (c : Config) (k : Nat)
    (h : c.MinResendRoundChangeTimeout ≤ c.MaxResendRoundChangeTimeout) :
    resendInterval c 0 = c.MinResendRoundChangeTimeout ∧
    resendInterval c k ≤ c.MaxResendRoundChangeTimeout ∧
    (2 * resendInterval c k ≤ c.MaxResendRoundChangeTimeout →
      resendInterval c (k + 1) = 2 * resendInterval c k) ∧
    resendInterval DefaultConfig 0 = 15000 ∧
    resendInterval DefaultConfig k ≤ 120000 := by
  refine ⟨rfl, ?_, ?_, by decide, ?_⟩
  · cases k with
    | zero => exact h
    | succ n => exact Nat.min_le_right _ _
  · intro h2
    simp [resendInterval, Nat.min_eq_left h2]
  · cases k with
    | zero => decide
    | succ n => exact Nat.min_le_right _ _

/-- Witness for C5 at the default configuration, resend count 3. -/
theorem resend_interval_backoff_witness :
    DefaultConfig.MinResendRoundChangeTimeout ≤ DefaultConfig.MaxResendRoundChangeTimeout ∧
    resendInterval DefaultConfig 3 ≤ 120000 :=
  ⟨by decide, (resend_interval_backoff DefaultConfig 3 (by decide)).2.2.2.2⟩

/-- Claim C6: proposer selection is deterministic — in this embedding every
policy's selector is a pure function of (ValidatorSet, sequence, round), so
two independent evaluations on identical inputs are definitionally equal. -/
theorem proposer_selection_deterministic (p : ProposerPolicy) (vals : List Address)
    (sequence round : Nat) :
    selectProposer p vals sequence round = selectProposer p vals sequence round := rfl

/-- Claim C7: the epoch checkpoint fires exactly when `height mod Epoch`
is zero, equivalently when `Epoch` divides the height; concrete instances at
the default epoch 30000. -/
theorem epoch_checkpoint_iff (epoch height : Nat) :
    (isEpochCheckpoint epoch height = true ↔ height % epoch = 0) ∧
    (isEpochCheckpoint epoch height = true ↔ epoch ∣ height) ∧
    isEpochCheckpoint 30000 0 = true ∧
    isEpochCheckpoint 30000 30000 = true ∧
    isEpochCheckpoint 30000 60000 = true ∧
    isEpochCheckpoint 30000 29999 = false := by
  refine ⟨by simp [isEpochCheckpoint], ?_, by decide, by decide, by decide, by decide⟩
  simp only [isEpochCheckpoint, beq_iff_eq]
  exact ⟨fun hm => Nat.dvd_of_mod_eq_zero hm, fun hd => Nat.mod_eq_zero_of_dvd hd⟩

/-- Claim C8: a missed signature at height `h` with
`currentHeight - h ≤ LookbackWindow` is forgiven — removing it from the
miss list leaves the counted-miss score unchanged. -/
theorem lookback_forgiveness (currentHeight window h : Nat) (rest : List Nat)
    (hin : currentHeight - h ≤ window) :
    countedMisses currentHeight window (h :: rest) =
      countedMisses currentHeight window rest := by
  have hfalse : ¬ (window < currentHeight - h) := Nat.not_lt.mpr hin
  simp [countedMisses, List.filter_cons, hfalse]

/-- Witness for C8: a miss 5 blocks back with window 12 is not counted. -/
theorem lookback_forgiveness_witness :
    100 - 95 ≤ 12 ∧
    countedMisses 100 12 (95 :: [50]) = countedMisses 100 12 [50] :=
  ⟨by decide, lookback_forgiveness 100 12 95 [50] (by decide)⟩

/-- Claim C9: `FaultyMode.String` maps each of the ten defined constants to
its distinct documented name and every value outside 0..9 to
`"Undefined"`. -/
theorem faulty_mode_string_spec :
    (faultyModeString Disabled = "Disabled" ∧
     faultyModeString Random = "Random" ∧
     faultyModeString NotBroadcast = "NotBroadcast" ∧
     faultyModeString SendWrongMsg = "SendWrongMsg" ∧
     faultyModeString ModifySig = "ModifySig" ∧
     faultyModeString AlwaysPropose = "AlwaysPropose" ∧
     faultyModeString AlwaysRoundChange = "AlwaysRoundChange" ∧
     faultyModeString BadBlock = "BadBlock" ∧
     faultyModeString SendExtraMessages = "SendExtraMessages" ∧
     faultyModeString SendExtraFutureMessages = "SendExtraFutureMessages") ∧
    List.Pairwise (fun a b => a ≠ b) ((List.range 10).map faultyModeString) ∧
    (∀ f : FaultyMode, 9 < f → faultyModeString f = "Undefined") := by
  refine ⟨by decide, by decide, ?_⟩
  intro f hf
  have h0 : f ≠ Disabled := fun he => absurd (he ▸ hf) (by decide)
  have h1 : f ≠ Random := fun he => absurd (he ▸ hf) (by decide)
  have h2 : f ≠ NotBroadcast := fun he => absurd (he ▸ hf) (by decide)
  have h3 : f ≠ SendWrongMsg := fun he => absurd (he ▸ hf) (by decide)
  have h4 : f ≠ ModifySig := fun he => absurd (he ▸ hf) (by decide)
  have h5 : f ≠ AlwaysPropose := fun he => absurd (he ▸ hf) (by decide)
  have h6 : f ≠ AlwaysRoundChange := fun he => absurd (he ▸ hf) (by decide)
  have h7 : f ≠ BadBlock := fun he => absurd (he ▸ hf) (by decide)
  have h8 : f ≠ SendExtraMessages := fun he => absurd (he ▸ hf) (by decide)
  have h9 : f ≠ SendExtraFutureMessages := fun he => absurd (he ▸ hf) (by decide)
  simp [faultyModeString, h0, h1, h2, h3, h4, h5, h6, h7, h8, h9]

/-- Witness for C9 at the undefined value 42. -/
theorem faulty_mode_string_spec_witness :
    9 < 42 ∧ faultyModeString 42 = "Undefined" :=
  ⟨by decide, faulty_mode_string_spec.2.2 42 (by decide)⟩

/-- Claim C10: the zero values of `ProposerPolicy` and `FaultyMode` are
`RoundRobin` and `Disabled`; the all-zero configuration therefore denotes
`RoundRobin`, differing from `DefaultConfig.ProposerPolicy =
ShuffledRoundRobin`, while its `FaultyMode` already equals the default. -/
theorem zero_config_policy_defaults :
    RoundRobin = 0 ∧ Disabled = 0 ∧
    zeroConfig.ProposerPolicy = RoundRobin ∧
    zeroConfig.FaultyMode = Disabled ∧
    DefaultConfig.ProposerPolicy = ShuffledRoundRobin ∧
    ShuffledRoundRobin = 2 ∧
    zeroConfig.ProposerPolicy ≠ DefaultConfig.ProposerPolicy ∧
    zeroConfig.FaultyMode = DefaultConfig.FaultyMode := by
  decide

end Istanbul
